import Mathlib

/-!
Shallow embedding of the chain-event notification and filtered-view engine of
the neutrino-lnd repository: the `LWFilteredChainView` (package chainview) and
the `LightWalletNotifier` (package lightwalletnotify).  Block hashes, txids and
scripts are modelled as natural numbers; the backend light-client and the
external transaction tracker are abstract collaborators, passed in as
function-valued parameters or recorded as emitted effects.
-/

/-- Block hashes and transaction ids (chainhash.Hash), modelled abstractly. -/
abbrev Hash := Nat

/-- Output scripts ([]byte pkScript), modelled abstractly. -/
abbrev Script := Nat

/-- wire.OutPoint: a transaction id together with an output index. -/
structure OutPoint where
  txid : Hash
  index : Nat
deriving DecidableEq, Repr

/-- wire.MsgTx, restricted to the fields the embedded code reads: the
transaction's id and the previous outpoints of its inputs. -/
structure MsgTx where
  txid : Hash
  txIn : List OutPoint
deriving DecidableEq, Repr

/-- The watched-output filter `chainFilter map[wire.OutPoint][]byte` of
LWFilteredChainView, as an association list from outpoint to script. -/
abbrev ChainFilter := List (OutPoint × Script)

/-- Go `delete(c.chainFilter, op)`: drop the entry with the given key. -/
def ChainFilter.eraseOP (m : ChainFilter) (op : OutPoint) : ChainFilter :=
  m.filter (fun e => decide (e.1 ≠ op))

/-- Whether some transaction of the block spends the given outpoint. -/
def spentByBlock (txns : List MsgTx) (op : OutPoint) : Bool :=
  txns.any (fun tx => decide (op ∈ tx.txIn))

/-- The tag of a blockEvent sent on the ordered block event queue. -/
inductive BlockEventType
  | connected
  | disconnected
deriving DecidableEq, Repr

/-- FilteredBlock: block hash, height, and the transactions carried along. -/
structure FilteredBlock where
  hash : Hash
  height : Nat
  transactions : List MsgTx
deriving DecidableEq, Repr

/-- blockEvent: an event type together with its FilteredBlock. -/
structure BlockEvent where
  eventType : BlockEventType
  block : FilteredBlock
deriving DecidableEq, Repr

/-- The mutable state of an LWFilteredChainView that the embedded callbacks
touch: the watched-output filter and the ordered block event queue.
`blockQueue.Add` is modelled from the spec as a FIFO append (spec, section
4.1: the queue keeps events in the exact order they were appended). -/
structure ChainViewState where
  chainFilter : ChainFilter
  blockQueue : List BlockEvent
deriving DecidableEq, Repr

/-- The inner loop of onFilteredBlockConnected for one transaction: every
input's previous outpoint is deleted from the chain filter. -/
def spendInputs (f : ChainFilter) (tx : MsgTx) : ChainFilter :=
  tx.txIn.foldl ChainFilter.eraseOP f

/-- `onFilteredBlockConnected` of LWFilteredChainView (src/unnamed/part_000,
lines 141-167): for each transaction of the connected block, each input's
previous outpoint is deleted from the chain filter under the write lock; then
a FilteredBlock carrying the block's hash, its height and all of the block's
transactions is added to the block event queue as a connected event.  The
header is represented by its block hash. -/
def onFilteredBlockConnected (st : ChainViewState) (height : Nat)
    (headerHash : Hash) (txns : List MsgTx) : ChainViewState :=
  { chainFilter := txns.foldl spendInputs st.chainFilter,
    blockQueue := st.blockQueue ++
      [{ eventType := .connected,
         block := { hash := headerHash, height := height, transactions := txns } }] }

/-- `onFilteredBlockDisconnected` (src/unnamed/part_000, lines 171-186): a
FilteredBlock with the block's hash and height and no transactions is added to
the block event queue as a disconnected event; the chain filter is not
touched. -/
def onFilteredBlockDisconnected (st : ChainViewState) (height : Nat)
    (headerHash : Hash) : ChainViewState :=
  { st with blockQueue := st.blockQueue ++
      [{ eventType := .disconnected,
         block := { hash := headerHash, height := height, transactions := [] } }] }

/-- `FilterBlock` (src/unnamed/part_000, lines 303-336): the block height is
fetched from the backend; on failure the error is returned.  Otherwise a
FilteredBlock with the given hash and the fetched height is built.  When the
chain filter is empty the function returns early; otherwise it collects the
filter entries into relevantPoints, which the code then never uses, and
returns the same FilteredBlock.  The chain filter is never modified. -/
def FilterBlock (getBlockHeight : Hash → Except String Nat)
    (st : ChainViewState) (blockHash : Hash) :
    Except String (FilteredBlock × ChainViewState) :=
  match getBlockHeight blockHash with
  | .error e => .error e
  | .ok blockHeight =>
    let filteredBlock : FilteredBlock :=
      { hash := blockHash, height := blockHeight, transactions := [] }
    if st.chainFilter.isEmpty then
      .ok (filteredBlock, st)
    else
      let _relevantPoints := st.chainFilter.map (fun e => e.2)
      .ok (filteredBlock, st)

/-- channeldb.EdgePoint, restricted to the field UpdateFilter reads. -/
structure EdgePoint where
  outPoint : OutPoint
  fundingScript : Script
deriving DecidableEq, Repr

/-- The filterUpdate message sent from UpdateFilter to the chainFilterer
goroutine. -/
structure FilterUpdate where
  newUtxos : List OutPoint
  updateHeight : Nat
deriving DecidableEq, Repr

/-- `UpdateFilter` (src/unnamed/part_000, lines 346-368): the edge points are
converted to their outpoints and sent as a filterUpdate message over the
filterUpdates channel; the chain filter itself is not touched here. -/
def UpdateFilter (ops : List EdgePoint) (updateHeight : Nat) : FilterUpdate :=
  { newUtxos := ops.map (fun op => op.outPoint), updateHeight := updateHeight }

/-- The filterUpdates case of the `chainFilterer` loop (src/unnamed/part_000,
lines 196-198): the received update is only logged; the insertion of the new
outpoints into the chain filter exists only as commented-out code, so the
state is returned unchanged. -/
def processFilterUpdate (st : ChainViewState) (_upd : FilterUpdate) :
    ChainViewState :=
  st

/-- An UpdateFilter call as the engine executes it end to end: the message is
built by UpdateFilter and consumed by the chainFilterer loop. -/
def applyUpdateFilter (st : ChainViewState) (ops : List EdgePoint)
    (updateHeight : Nat) : ChainViewState :=
  processFilterUpdate st (UpdateFilter ops updateHeight)

lemma foldl_eraseOP (ops : List OutPoint) (f : ChainFilter) :
    ops.foldl ChainFilter.eraseOP f
      = f.filter (fun e => decide (e.1 ∉ ops)) := by
  induction ops generalizing f with
  | nil => simp
  | cons op ops ih =>
    simp only [List.foldl_cons, ih, ChainFilter.eraseOP, List.filter_filter]
    apply List.filter_congr
    intro e _
    by_cases h1 : e.1 = op <;> by_cases h2 : e.1 ∈ ops <;> simp [h1, h2]

lemma foldl_spendInputs (txns : List MsgTx) (f : ChainFilter) :
    txns.foldl spendInputs f
      = f.filter (fun e => !(spentByBlock txns e.1)) := by
  induction txns generalizing f with
  | nil => simp [spentByBlock]
  | cons tx txns ih =>
    simp only [List.foldl_cons, ih, spendInputs, foldl_eraseOP,
      List.filter_filter]
    apply List.filter_congr
    intro e _
    by_cases h1 : e.1 ∈ tx.txIn <;>
      by_cases h2 : spentByBlock txns e.1 <;>
        simp [spentByBlock, h1, h2] at *

/-- C4: processing a connected block removes from the watched-output filter
exactly the entries whose outpoint is spent by some input of a transaction in
the block, and enqueues a connected FilteredBlock carrying the block's hash,
its height, and all of the block's transactions.  In particular, for a filter
holding outpoint (txA, 0) and a connected block at height 105 whose
transaction spends (txA, 0), afterwards the filter no longer contains
(txA, 0) and the queued FilteredBlock for height 105 lists the spending
transaction. -/
theorem onFilteredBlockConnected_spec :
    (∀ (st : ChainViewState) (height : Nat) (hsh : Hash) (txns : List MsgTx),
      (onFilteredBlockConnected st height hsh txns).chainFilter
          = st.chainFilter.filter (fun e => !(spentByBlock txns e.1))
        ∧ (onFilteredBlockConnected st height hsh txns).blockQueue
          = st.blockQueue ++
            [{ eventType := .connected,
               block := { hash := hsh, height := height, transactions := txns } }])
    ∧ ((onFilteredBlockConnected
          { chainFilter := [(⟨1, 0⟩, 7)], blockQueue := [] } 105 9
          [{ txid := 2, txIn := [⟨1, 0⟩] }]).chainFilter = []
      ∧ (onFilteredBlockConnected
          { chainFilter := [(⟨1, 0⟩, 7)], blockQueue := [] } 105 9
          [{ txid := 2, txIn := [⟨1, 0⟩] }]).blockQueue
        = [{ eventType := .connected,
             block := { hash := 9, height := 105,
                        transactions := [{ txid := 2, txIn := [⟨1, 0⟩] }] } }]) :=
  ⟨fun st height hsh txns => ⟨foldl_spendInputs txns st.chainFilter, rfl⟩,
   by decide, by decide⟩

/-- C9: processing a disconnected block enqueues a disconnected FilteredBlock
carrying the block's hash and height with an empty transaction list, and the
watched-output filter is completely unchanged. -/
theorem onFilteredBlockDisconnected_spec :
    ∀ (st : ChainViewState) (height : Nat) (hsh : Hash),
      (onFilteredBlockDisconnected st height hsh).blockQueue
          = st.blockQueue ++
            [{ eventType := .disconnected,
               block := { hash := hsh, height := height, transactions := [] } }]
        ∧ (onFilteredBlockDisconnected st height hsh).chainFilter
          = st.chainFilter :=
  fun _ _ _ => ⟨rfl, rfl⟩

/-- C10: whenever the backend height lookup succeeds, FilterBlock returns a
FilteredBlock with the requested hash, the fetched height and an empty
transaction list, and leaves the chain-view state (in particular the
watched-output filter) unchanged, whether the filter is empty or not. -/
theorem FilterBlock_spec :
    ∀ (getBlockHeight : Hash → Except String Nat) (st : ChainViewState)
      (blockHash : Hash) (blockHeight : Nat),
      getBlockHeight blockHash = .ok blockHeight →
      FilterBlock getBlockHeight st blockHash
        = .ok ({ hash := blockHash, height := blockHeight, transactions := [] }, st) := by
  intro getBlockHeight st blockHash blockHeight h
  simp only [FilterBlock, h]
  split <;> rfl

/-- Witness for C10 at a concrete input, covering a non-empty filter. -/
theorem FilterBlock_spec_witness :
    FilterBlock (fun _ => Except.ok 42)
        { chainFilter := [(⟨1, 0⟩, 7)], blockQueue := [] } 5
      = .ok ({ hash := 5, height := 42, transactions := [] },
             { chainFilter := [(⟨1, 0⟩, 7)], blockQueue := [] }) :=
  FilterBlock_spec (fun _ => Except.ok 42)
    { chainFilter := [(⟨1, 0⟩, 7)], blockQueue := [] } 5 42 rfl

/-- C2: the engine never inserts the outpoints given to UpdateFilter.  The
filterUpdates case of the chainFilterer loop only logs the update (the
cumulative-union insert is commented out), so the watched set after an
UpdateFilter call is identical to the watched set before it; in particular an
update carrying outpoint (1, 0) at height 10 leaves an empty filter empty,
although the method's own documentation promises cumulative expansion. -/
theorem updateFilter_insert_dropped :
    (∀ (st : ChainViewState) (ops : List EdgePoint) (updateHeight : Nat),
      (applyUpdateFilter st ops updateHeight).chainFilter = st.chainFilter)
    ∧ (applyUpdateFilter { chainFilter := [], blockQueue := [] }
        [{ outPoint := ⟨1, 0⟩, fundingScript := 7 }] 10).chainFilter = [] :=
  ⟨fun _ _ _ => rfl, rfl⟩

/-- The errors the notifier surfaces: the dedicated
chainntnfs.ErrChainNotifierShuttingDown value, and backend or structural
failures wrapped by fmt.Errorf, carried as a message. -/
inductive NtfnError
  | shuttingDown
  | ioError (msg : String)
deriving DecidableEq, Repr

/-- chainntnfs.TxConfStatus, the status values the lightwallet notifier
produces. -/
inductive TxConfStatus
  | txNotFoundIndex
  | txFoundMempool
  | txFoundIndex
  | txNotFoundManually
  | txFoundManually
deriving DecidableEq, Repr

/-- chainntnfs.TxConfirmation: the confirmation details returned by the
historical resolver. -/
structure TxConfirmation where
  tx : MsgTx
  blockHash : Hash
  blockHeight : Nat
  txIndex : Nat
deriving DecidableEq, Repr

/-- chainntnfs.ConfRequest, at the interface the notifier consumes: the
request's output script, and its MatchesTx test kept abstract (the matching
by txid or script lives in the external chainntnfs tracker package). -/
structure ConfRequest where
  pkScript : Script
  matchesTx : MsgTx → Bool

/-- A compact filter as the notifier consumes it: a membership test for a
script, which may fail.  The match key derived from the block hash is folded
into the per-block filter returned by the backend. -/
structure GcsFilter where
  matchScript : Script → Except String Bool

/-- The backend light-client collaborator (chain.LightWalletClient), at the
interface the embedded code calls. -/
structure ChainBackend where
  getBlockHash : Nat → Except String Hash
  getCFilter : Hash → Except String (Option GcsFilter)
  getFilterBlock : Hash → Except String (List MsgTx)
  getBlock : Hash → Except String (List MsgTx)

/-- The per-block linear scan shared by historicalConfDetails and
confDetailsManually: walk the transactions in order with their index and
return the confirmation details of the first one matching the request. -/
def findConfirmedTxFrom (confRequest : ConfRequest) (txs : List MsgTx)
    (blockHash : Hash) (height i : Nat) : Option TxConfirmation :=
  match txs with
  | [] => none
  | tx :: rest =>
    if confRequest.matchesTx tx then
      some { tx := tx, blockHash := blockHash, blockHeight := height, txIndex := i }
    else
      findConfirmedTxFrom confRequest rest blockHash height (i + 1)

/-- The linear scan started at index 0. -/
def findConfirmedTx (confRequest : ConfRequest) (txs : List MsgTx)
    (blockHash : Hash) (height : Nat) : Option TxConfirmation :=
  findConfirmedTxFrom confRequest txs blockHash height 0

/-- `historicalConfDetails` (lightwallet.go, lines 312-390): walk from
endHeight (here the scanHeight argument of the current iteration) down to
startHeight while the height is positive.  At each height: first the quit
channel is checked (quit gives whether it is observed closed at that height),
returning ErrChainNotifierShuttingDown when signalled; then the block hash and
its compact filter are fetched, an absent filter skips the height; the filter
is matched against the request's script, a negative match skips the height;
on a positive match the block's transactions are fetched and scanned linearly,
returning the confirmation details of the first match, and when no transaction
matches the scan continues with the next lower height.  An exhausted range
yields a nil result with no error. -/
def historicalConfDetails (be : ChainBackend) (quit : Nat → Bool)
    (confRequest : ConfRequest) (startHeight scanHeight : Nat) :
    Except NtfnError (Option TxConfirmation) :=
  if hcond : startHeight ≤ scanHeight ∧ 0 < scanHeight then
    if quit scanHeight then
      .error .shuttingDown
    else
      match be.getBlockHash scanHeight with
      | .error e => .error (.ioError ("unable to get header for height: " ++ e))
      | .ok blockHash =>
        match be.getCFilter blockHash with
        | .error e =>
          .error (.ioError ("unable to retrieve regular filter for height: " ++ e))
        | .ok none =>
          historicalConfDetails be quit confRequest startHeight (scanHeight - 1)
        | .ok (some filter) =>
          match filter.matchScript confRequest.pkScript with
          | .error e => .error (.ioError ("unable to query filter: " ++ e))
          | .ok false =>
            historicalConfDetails be quit confRequest startHeight (scanHeight - 1)
          | .ok true =>
            match be.getFilterBlock blockHash with
            | .error e =>
              .error (.ioError ("unable to get block from network: " ++ e))
            | .ok transactions =>
              match findConfirmedTx confRequest transactions blockHash scanHeight with
              | some conf => .ok (some conf)
              | none =>
                historicalConfDetails be quit confRequest startHeight (scanHeight - 1)
  else
    .ok none
termination_by scanHeight
decreasing_by all_goals omega

/-- `confDetailsManually` (lightwallet.go, lines 485-535): walk from
currentHeight down to heightHint while the height is positive; each iteration
first checks the quit channel, returning TxNotFoundManually with
ErrChainNotifierShuttingDown when signalled, then fetches the full block and
scans every transaction against the request, returning the first match with
TxFoundManually.  An exhausted range yields TxNotFoundManually with no
error. -/
def confDetailsManually (be : ChainBackend) (quit : Nat → Bool)
    (confRequest : ConfRequest) (heightHint currentHeight : Nat) :
    Option TxConfirmation × TxConfStatus × Option NtfnError :=
  if hcond : heightHint ≤ currentHeight ∧ 0 < currentHeight then
    if quit currentHeight then
      (none, .txNotFoundManually, some .shuttingDown)
    else
      match be.getBlockHash currentHeight with
      | .error _ =>
        (none, .txNotFoundManually,
         some (.ioError "unable to get hash from block with height"))
      | .ok blockHash =>
        match be.getBlock blockHash with
        | .error e =>
          (none, .txNotFoundManually,
           some (.ioError ("unable to get block with hash: " ++ e)))
        | .ok transactions =>
          match findConfirmedTx confRequest transactions blockHash currentHeight with
          | some conf => (some conf, .txFoundManually, none)
          | none => confDetailsManually be quit confRequest heightHint (currentHeight - 1)
  else
    (none, .txNotFoundManually, none)
termination_by currentHeight
decreasing_by all_goals omega

/-- The outcome of the RPC error inspection in confDetailsFromTxIndex: the
backend error either is a btcjson RPCError with code ErrRPCNoTxInfo, whose
message may or may not contain the tx-not-found phrase, or it is some other
error carried as a message. -/
inductive RpcErr
  | noTxInfo (msgContainsNotFound : Bool)
  | other (msg : String)
deriving DecidableEq, Repr

/-- The BlockHash string of a GetRawTransactionVerbose result: empty (the
transaction is unconfirmed), a string chainhash.NewHashFromStr rejects, or a
string parsing to a block hash. -/
inductive HashStr
  | empty
  | invalid (s : String)
  | valid (h : Hash)
deriving DecidableEq, Repr

/-- A GetRawTransactionVerbose result, restricted to the fields the code
reads: the confirming block hash string, and the outcome of hex-decoding and
deserializing the Hex field (none when either step fails). -/
structure RawTxVerbose where
  blockHashStr : HashStr
  hexTx : Option MsgTx
deriving DecidableEq, Repr

/-- A GetBlockVerbose result, restricted to the fields the code reads: the
block height and the ordered list of transaction ids. -/
structure VerboseBlock where
  height : Nat
  tx : List Hash
deriving DecidableEq, Repr

/-- The transaction-index side of the backend collaborator. -/
structure TxIndexBackend where
  getRawTransactionVerbose : Hash → Except RpcErr RawTxVerbose
  getBlockVerbose : Hash → Except String VerboseBlock

/-- The index-location loop of confDetailsFromTxIndex: walk the block's
transaction ids with their index and return the position of the first one
equal to the requested txid. -/
def locateTxFrom (txid : Hash) (txs : List Hash) (i : Nat) : Option Nat :=
  match txs with
  | [] => none
  | txHash :: rest =>
    if txHash = txid then some i else locateTxFrom txid rest (i + 1)

/-- `confDetailsFromTxIndex` (lightwallet.go, lines 398-479): query the
backend for the raw transaction.  A lookup error that is an RPCError with
code ErrRPCNoTxInfo and the tx-not-found message yields TxNotFoundIndex with
no error; any other lookup error yields TxNotFoundIndex with an error.  A
result with an empty confirming block hash yields TxFoundMempool with a nil
confirmation and no error.  Otherwise the hash string is parsed and the
confirming block's verbose listing fetched (each failure yielding
TxNotFoundIndex with an error); the transaction's position in the listing is
located and its raw bytes decoded, yielding TxFoundIndex with full
confirmation details, or TxFoundIndex with an error when decoding fails; when
the listing does not contain the transaction at all, TxNotFoundIndex with an
error is returned. -/
def confDetailsFromTxIndex (be : TxIndexBackend) (txid : Hash) :
    Option TxConfirmation × TxConfStatus × Option NtfnError :=
  match be.getRawTransactionVerbose txid with
  | .error e =>
    match e with
    | .noTxInfo true => (none, .txNotFoundIndex, none)
    | _ => (none, .txNotFoundIndex, some (.ioError "unable to query for txid"))
  | .ok rawTxRes =>
    match rawTxRes.blockHashStr with
    | .empty => (none, .txFoundMempool, none)
    | .invalid _ =>
      (none, .txNotFoundIndex,
       some (.ioError "unable to get block hash for historical dispatch"))
    | .valid blockHash =>
      match be.getBlockVerbose blockHash with
      | .error _ =>
        (none, .txNotFoundIndex,
         some (.ioError "unable to get block with hash for historical dispatch"))
      | .ok block =>
        match locateTxFrom txid block.tx 0 with
        | none =>
          (none, .txNotFoundIndex, some (.ioError "unable to locate tx in block"))
        | some txIndex =>
          match rawTxRes.hexTx with
          | none => (none, .txFoundIndex, some (.ioError "unable to deserialize tx"))
          | some tx =>
            (some { tx := tx, blockHash := blockHash,
                    blockHeight := block.height, txIndex := txIndex },
             .txFoundIndex, none)

/-- chainntnfs.BlockEpoch: a chain tip given by height and hash. -/
structure BlockEpoch where
  height : Int
  hash : Hash
deriving DecidableEq, Repr

/-- blockEpochRegistration, restricted to the state the dispatcher loop
touches: the id, the optional best-known-block hint, the contents of the
registration's concurrent epoch queue (epochQueue), and whether its cancel
channel is observed closed. -/
structure BlockEpochRegistration where
  epochID : Nat
  bestBlock : Option BlockEpoch
  epochQueue : List BlockEpoch
  cancelled : Bool
deriving DecidableEq, Repr

/-- The LightWalletNotifier dispatcher state: the block-epoch subscriber map
(an association list keyed by epochID), the best-known tip, and whether the
notifier's quit channel is observed closed. -/
structure DispatcherState where
  blockEpochClients : List (Nat × BlockEpochRegistration)
  bestBlock : BlockEpoch
  quit : Bool
deriving DecidableEq, Repr

/-- `notifyBlockEpochClient` (lightwallet.go, lines 582-595): the epoch built
from the given height and hash is placed on the client's epoch queue, unless
the client's cancel channel or the notifier's quit channel is observed
closed, in which case the notification is dropped. -/
def notifyBlockEpochClient (quit : Bool) (reg : BlockEpochRegistration)
    (height : Int) (sha : Hash) : BlockEpochRegistration :=
  if reg.cancelled || quit then reg
  else { reg with epochQueue := reg.epochQueue ++ [{ height := height, hash := sha }] }

/-- The blockEpochRegistration case of notificationDispatcher (lightwallet.go,
lines 246-287): the registration is stored in the subscriber map; when it
carries no best-known-block hint, the current tip is dispatched to it at once
and nil is sent on its error channel; otherwise the backlog of missed blocks
between the hint and the current tip is computed by the external
GetClientMissedBlocks collaborator — on failure that error is sent on the
error channel, otherwise each missed block is dispatched in order and then
nil is sent.  The second component is the value sent on the registration's
error channel (none standing for the nil success value). -/
def handleEpochRegistration
    (missedBlocks : BlockEpoch → Int → Except String (List BlockEpoch))
    (st : DispatcherState) (msg : BlockEpochRegistration) :
    DispatcherState × Option String :=
  match msg.bestBlock with
  | none =>
    let client := notifyBlockEpochClient st.quit msg st.bestBlock.height st.bestBlock.hash
    ({ st with blockEpochClients := st.blockEpochClients ++ [(msg.epochID, client)] },
     none)
  | some hint =>
    match missedBlocks hint st.bestBlock.height with
    | .error e =>
      ({ st with blockEpochClients := st.blockEpochClients ++ [(msg.epochID, msg)] },
       some e)
    | .ok blocks =>
      let client := blocks.foldl
        (fun c blk => notifyBlockEpochClient st.quit c blk.height blk.hash) msg
      ({ st with blockEpochClients := st.blockEpochClients ++ [(msg.epochID, client)] },
       none)

/-- The calls the notifier makes into the external chainntnfs.TxNotifier
tracker, recorded as effects. -/
inductive TrackerCall
  | connectTip (hsh : Hash) (height : Int) (txs : List MsgTx)
  | notifyHeight (height : Int)
  | updateConfDetails (req : ConfRequest) (details : Option TxConfirmation)

/-- The chain notifications the backend stream delivers to the dispatcher
(chain.BlockConnected, chain.BlockDisconnected, chain.RelevantTx). -/
inductive ChainNtfn
  | blockConnected (hsh : Hash) (height : Int)
  | blockDisconnected (hsh : Hash) (height : Int)
  | relevantTx (txid : Hash)
deriving DecidableEq, Repr

/-- The chain-notification case of notificationDispatcher (lightwallet.go,
lines 289-300): every notification kind only prints a debug line (the
BlockConnected payload is passed to the no-op Mock helper), so the dispatcher
state is unchanged and no tracker call is made.  handleBlockConnected exists
in the source but is never invoked from this loop. -/
def handleChainNotification (st : DispatcherState) (n : ChainNtfn) :
    DispatcherState × List TrackerCall :=
  match n with
  | .blockConnected _ _ => (st, [])
  | .blockDisconnected _ _ => (st, [])
  | .relevantTx _ => (st, [])

/-- `notifyBlockEpochs` (lightwallet.go, lines 574-578): dispatch the new
block's epoch to every registered block-epoch client. -/
def notifyBlockEpochs (st : DispatcherState) (newHeight : Int) (newSha : Hash) :
    DispatcherState :=
  { st with blockEpochClients :=
      (st.blockEpochClients.map fun e =>
        (e.1, notifyBlockEpochClient st.quit e.2 newHeight newSha)) }

/-- `handleBlockConnected` (lightwallet.go, lines 540-570): fetch the raw
block, extend the tracker with ConnectTip, update the in-memory best block,
fan the epoch out to every registered client, and forward the height with
NotifyHeight.  The tracker calls are recorded as effects and assumed to
succeed.  This function is present in the source but unreachable: nothing
ever calls it. -/
def handleBlockConnected (getBlock : Hash → Except String (List MsgTx))
    (st : DispatcherState) (block : BlockEpoch) :
    Except String (DispatcherState × List TrackerCall) :=
  match getBlock block.hash with
  | .error e => .error ("unable to get block: " ++ e)
  | .ok txns =>
    .ok (notifyBlockEpochs { st with bestBlock := block } block.height block.hash,
         [TrackerCall.connectTip block.hash block.height txns,
          TrackerCall.notifyHeight block.height])

/-- chainntnfs.HistoricalConfDispatch, restricted to the fields the
dispatcher reads. -/
structure HistoricalConfDispatch where
  confRequest : ConfRequest
  startHeight : Nat
  endHeight : Nat

/-- The HistoricalConfDispatch case of notificationDispatcher
(lightwallet.go, lines 200-241): the spawned task runs historicalConfDetails
over the request's range; on error it only logs and makes no tracker call; on
success it unconditionally calls UpdateConfDetails with the details obtained,
even when none were found. -/
def handleHistoricalConfDispatch (be : ChainBackend) (quit : Nat → Bool)
    (msg : HistoricalConfDispatch) : List TrackerCall :=
  match historicalConfDetails be quit msg.confRequest msg.startHeight msg.endHeight with
  | .error _ => []
  | .ok confDetails => [.updateConfDetails msg.confRequest confDetails]

/-- A confirmation request whose MatchesTx test never succeeds. -/
def alwaysFalseReq : ConfRequest :=
  { pkScript := 7, matchesTx := fun _ => false }

/-- A concrete backend whose compact filter always reports a positive match
while its blocks contain a single transaction (txid 50) that matches no
request: the compact-filter match is a false positive for every request that
does not match transaction 50. -/
def falsePositiveBackend : ChainBackend :=
  { getBlockHash := fun _ => .ok 100,
    getCFilter := fun _ => .ok (some { matchScript := fun _ => .ok true }),
    getFilterBlock := fun _ => .ok [{ txid := 50, txIn := [] }],
    getBlock := fun _ => .ok [{ txid := 50, txIn := [] }] }

/-- C3 counterexample: at height 1 the compact filter reports a positive match
for the request's script, and the linear scan of that block's transactions
finds no transaction matching the confirmation request, yet
historicalConfDetails does not return an error: it continues the scan and,
the range being exhausted, returns a nil result with no error. -/
theorem historicalConfDetails_falsePositive_no_error :
    (∃ f, falsePositiveBackend.getCFilter 100 = .ok (some f)
        ∧ f.matchScript alwaysFalseReq.pkScript = .ok true)
      ∧ falsePositiveBackend.getFilterBlock 100 = .ok [{ txid := 50, txIn := [] }]
      ∧ findConfirmedTx alwaysFalseReq [{ txid := 50, txIn := [] }] 100 1 = none
      ∧ historicalConfDetails falsePositiveBackend (fun _ => false) alwaysFalseReq 1 1
        = .ok none
      ∧ ¬ ∃ e, historicalConfDetails falsePositiveBackend (fun _ => false)
          alwaysFalseReq 1 1 = .error e := by
  have hmain : historicalConfDetails falsePositiveBackend (fun _ => false)
      alwaysFalseReq 1 1 = .ok none := by
    rw [historicalConfDetails.eq_def]
    simp [falsePositiveBackend, alwaysFalseReq, findConfirmedTx, findConfirmedTxFrom]
    rw [historicalConfDetails.eq_def]
    simp
  exact ⟨⟨_, rfl, rfl⟩, rfl, rfl, hmain, fun ⟨e, he⟩ => by simp [hmain] at he⟩

/-- C3 (amended): whenever the compact filter for a height reports a positive
match for the request's script but the linear scan of that block's
transactions finds no transaction matching the confirmation request, the scan
treats the match as a compact-filter false positive and continues with the
next lower height; no error is produced for that height. -/
theorem historicalConfDetails_falsePositive_continues
    (be : ChainBackend) (quit : Nat → Bool) (confRequest : ConfRequest)
    (startHeight scanHeight : Nat) (blockHash : Hash) (filter : GcsFilter)
    (transactions : List MsgTx)
    (hrange : startHeight ≤ scanHeight) (hpos : 0 < scanHeight)
    (hquit : quit scanHeight = false)
    (hbh : be.getBlockHash scanHeight = .ok blockHash)
    (hcf : be.getCFilter blockHash = .ok (some filter))
    (hmatch : filter.matchScript confRequest.pkScript = .ok true)
    (htxs : be.getFilterBlock blockHash = .ok transactions)
    (hnone : findConfirmedTx confRequest transactions blockHash scanHeight = none) :
    historicalConfDetails be quit confRequest startHeight scanHeight
      = historicalConfDetails be quit confRequest startHeight (scanHeight - 1) := by
  conv_lhs => rw [historicalConfDetails.eq_def]
  simp [hrange, hpos, hquit, hbh, hcf, hmatch, htxs, hnone]

/-- Witness for the amended C3 at a concrete input: the false-positive height
is skipped and the scan proceeds to the next lower height. -/
theorem historicalConfDetails_falsePositive_continues_witness :
    historicalConfDetails falsePositiveBackend (fun _ => false) alwaysFalseReq 1 1
      = historicalConfDetails falsePositiveBackend (fun _ => false) alwaysFalseReq 1 0 :=
  historicalConfDetails_falsePositive_continues falsePositiveBackend (fun _ => false)
    alwaysFalseReq 1 1 100 { matchScript := fun _ => .ok true }
    [{ txid := 50, txIn := [] }] (by decide) (by decide) rfl rfl rfl rfl rfl rfl

/-- C8: both historical scan strategies check the notifier's quit channel at
the start of every height step; whenever it is observed closed there, the
filter-match scan and the manual per-block scan both return the dedicated
ErrChainNotifierShuttingDown value, regardless of the backend, rather than a
partial or nil-success result. -/
theorem historicalScans_shutdown (be : ChainBackend) (quit : Nat → Bool)
    (confRequest : ConfRequest) (startHeight scanHeight : Nat)
    (hrange : startHeight ≤ scanHeight) (hpos : 0 < scanHeight)
    (hquit : quit scanHeight = true) :
    historicalConfDetails be quit confRequest startHeight scanHeight
        = .error .shuttingDown
      ∧ confDetailsManually be quit confRequest startHeight scanHeight
        = (none, .txNotFoundManually, some .shuttingDown) := by
  constructor
  · rw [historicalConfDetails.eq_def]
    simp [hrange, hpos, hquit]
  · rw [confDetailsManually.eq_def]
    simp [hrange, hpos, hquit]

/-- Witness for C8 at a concrete input: with the quit channel closed, both
scans over the range 1-5 return the shutting-down error. -/
theorem historicalScans_shutdown_witness :
    historicalConfDetails falsePositiveBackend (fun _ => true) alwaysFalseReq 1 5
        = .error .shuttingDown
      ∧ confDetailsManually falsePositiveBackend (fun _ => true) alwaysFalseReq 1 5
        = (none, .txNotFoundManually, some .shuttingDown) :=
  historicalScans_shutdown falsePositiveBackend (fun _ => true) alwaysFalseReq 1 5
    (by decide) (by decide) rfl

/-- C5: whenever the historical confirmation scan completes without error, the
dispatch handler reports the result to the external tracker with exactly one
UpdateConfDetails call carrying the request and the details obtained — also
when no confirmation was found (nil details) — so a missing transaction still
completes the registration's historical phase. -/
theorem handleHistoricalConfDispatch_reports (be : ChainBackend)
    (quit : Nat → Bool) (msg : HistoricalConfDispatch)
    (confDetails : Option TxConfirmation)
    (hscan : historicalConfDetails be quit msg.confRequest msg.startHeight
        msg.endHeight = .ok confDetails) :
    handleHistoricalConfDispatch be quit msg
      = [TrackerCall.updateConfDetails msg.confRequest confDetails] := by
  simp [handleHistoricalConfDispatch, hscan]

/-- Witness for C5 at a concrete input: a scan over an empty range finds
nothing, and the nil result is still reported via UpdateConfDetails. -/
theorem handleHistoricalConfDispatch_reports_witness :
    handleHistoricalConfDispatch falsePositiveBackend (fun _ => false)
        { confRequest := alwaysFalseReq, startHeight := 1, endHeight := 0 }
      = [TrackerCall.updateConfDetails alwaysFalseReq none] :=
  handleHistoricalConfDispatch_reports falsePositiveBackend (fun _ => false)
    { confRequest := alwaysFalseReq, startHeight := 1, endHeight := 0 } none
    (by rw [historicalConfDetails.eq_def]; simp)

lemma locateTxFrom_eq_none (txid : Hash) (txs : List Hash) (i : Nat)
    (h : txid ∉ txs) : locateTxFrom txid txs i = none := by
  induction txs generalizing i with
  | nil => rfl
  | cons t rest ih =>
    simp only [List.mem_cons, not_or] at h
    rw [locateTxFrom, if_neg (fun hh => h.1 hh.symm)]
    exact ih _ h.2

/-- C6: the transaction-index lookup distinguishes its outcomes: a backend
tx-not-found error yields TxNotFoundIndex with no error and no details; a
transaction returned without a confirming block hash yields TxFoundMempool
with a nil confirmation and no error; a transaction whose confirming block's
listing contains it at position txIndex yields TxFoundIndex with full
confirmation details (decoded transaction, block hash, block height, in-block
index) and no error; and when the confirming block's listing does not contain
the transaction, an error is returned. -/
theorem confDetailsFromTxIndex_spec (be : TxIndexBackend) (txid : Hash) :
    (be.getRawTransactionVerbose txid = .error (.noTxInfo true) →
        confDetailsFromTxIndex be txid = (none, .txNotFoundIndex, none))
      ∧ (∀ rawTxRes, be.getRawTransactionVerbose txid = .ok rawTxRes →
          rawTxRes.blockHashStr = .empty →
          confDetailsFromTxIndex be txid = (none, .txFoundMempool, none))
      ∧ (∀ rawTxRes blockHash block txIndex tx,
          be.getRawTransactionVerbose txid = .ok rawTxRes →
          rawTxRes.blockHashStr = .valid blockHash →
          be.getBlockVerbose blockHash = .ok block →
          locateTxFrom txid block.tx 0 = some txIndex →
          rawTxRes.hexTx = some tx →
          confDetailsFromTxIndex be txid
            = (some { tx := tx, blockHash := blockHash,
                      blockHeight := block.height, txIndex := txIndex },
               .txFoundIndex, none))
      ∧ (∀ rawTxRes blockHash block,
          be.getRawTransactionVerbose txid = .ok rawTxRes →
          rawTxRes.blockHashStr = .valid blockHash →
          be.getBlockVerbose blockHash = .ok block →
          txid ∉ block.tx →
          confDetailsFromTxIndex be txid
            = (none, .txNotFoundIndex,
               some (.ioError "unable to locate tx in block"))) := by
  refine ⟨?_, ?_, ?_, ?_⟩
  · intro h
    simp [confDetailsFromTxIndex, h]
  · intro rawTxRes h hempty
    simp [confDetailsFromTxIndex, h, hempty]
  · intro rawTxRes blockHash block txIndex tx h hvalid hblk hloc hhex
    simp [confDetailsFromTxIndex, h, hvalid, hblk, hloc, hhex]
  · intro rawTxRes blockHash block h hvalid hblk hmem
    simp [confDetailsFromTxIndex, h, hvalid, hblk, locateTxFrom_eq_none txid block.tx 0 hmem]

/-- A concrete transaction-index backend: txid 5 is confirmed at position 1 of
block 100 (height 60); every other txid is reported missing. -/
def sampleIndexBackend : TxIndexBackend :=
  { getRawTransactionVerbose := fun t =>
      if t = 5 then
        .ok { blockHashStr := .valid 100, hexTx := some { txid := 5, txIn := [] } }
      else .error (.noTxInfo true),
    getBlockVerbose := fun _ => .ok { height := 60, tx := [4, 5] } }

/-- Witness for C6 at concrete inputs: the found-in-index case with full
details and the not-found case with no error. -/
theorem confDetailsFromTxIndex_spec_witness :
    confDetailsFromTxIndex sampleIndexBackend 5
        = (some { tx := { txid := 5, txIn := [] }, blockHash := 100,
                  blockHeight := 60, txIndex := 1 }, .txFoundIndex, none)
      ∧ confDetailsFromTxIndex sampleIndexBackend 9
        = (none, .txNotFoundIndex, none) :=
  ⟨(confDetailsFromTxIndex_spec sampleIndexBackend 5).2.2.1
      { blockHashStr := .valid 100, hexTx := some { txid := 5, txIn := [] } }
      100 { height := 60, tx := [4, 5] } 1 { txid := 5, txIn := [] }
      rfl rfl rfl rfl rfl,
   (confDetailsFromTxIndex_spec sampleIndexBackend 9).1 rfl⟩

/-- C7: a block-epoch registration carrying no best-known-block hint, handled
while the notifier is running and the client is not cancelled, is stored in
the subscriber map with exactly one notification — the current best tip's
height and hash — appended to its delivery queue, and the nil success value
is sent on its error channel; the best tip and every other subscriber are
untouched, and no further notification is produced by the registration. -/
theorem handleEpochRegistration_no_hint
    (missedBlocks : BlockEpoch → Int → Except String (List BlockEpoch))
    (st : DispatcherState) (msg : BlockEpochRegistration)
    (hhint : msg.bestBlock = none) (hquit : st.quit = false)
    (hcancel : msg.cancelled = false) :
    handleEpochRegistration missedBlocks st msg
      = ({ st with blockEpochClients := st.blockEpochClients ++
            [(msg.epochID, { msg with epochQueue :=
                msg.epochQueue ++ [{ height := st.bestBlock.height,
                                     hash := st.bestBlock.hash }] })] },
         none) := by
  simp [handleEpochRegistration, notifyBlockEpochClient, hhint, hquit, hcancel]

/-- Witness for C7 at a concrete input: registering a hintless subscriber
while the tip is (500, 77) yields exactly the one notification (500, 77) and
the nil success value. -/
theorem handleEpochRegistration_no_hint_witness :
    handleEpochRegistration (fun _ _ => .ok [])
        { blockEpochClients := [], bestBlock := { height := 500, hash := 77 },
          quit := false }
        { epochID := 1, bestBlock := none, epochQueue := [], cancelled := false }
      = ({ blockEpochClients :=
            [(1, { epochID := 1, bestBlock := none,
                   epochQueue := [{ height := 500, hash := 77 }],
                   cancelled := false })],
           bestBlock := { height := 500, hash := 77 }, quit := false },
         none) :=
  handleEpochRegistration_no_hint (fun _ _ => .ok [])
    { blockEpochClients := [], bestBlock := { height := 500, hash := 77 },
      quit := false }
    { epochID := 1, bestBlock := none, epochQueue := [], cancelled := false }
    rfl rfl rfl

/-- C1: contrary to the claim, the dispatcher drops connected-block
chain-update events.  The BlockConnected case of the notification select only
prints a debug line and passes the event to the no-op Mock helper, so the
best-tip state is unchanged, no block epoch is delivered to any registered
client, and no ConnectTip or NotifyHeight tracker call is made; evaluated
concretely, a BlockConnected event for height 501 arriving with one
registered subscriber and best tip (500, 5) leaves the dispatcher state
untouched and produces no tracker call. -/
theorem handleChainNotification_blockConnected_dropped :
    (∀ (st : DispatcherState) (hsh : Hash) (height : Int),
        handleChainNotification st (.blockConnected hsh height) = (st, []))
      ∧ handleChainNotification
          { blockEpochClients := [(1, { epochID := 1, bestBlock := none,
                                        epochQueue := [], cancelled := false })],
            bestBlock := { height := 500, hash := 5 }, quit := false }
          (.blockConnected 6 501)
        = ({ blockEpochClients := [(1, { epochID := 1, bestBlock := none,
                                         epochQueue := [], cancelled := false })],
             bestBlock := { height := 500, hash := 5 }, quit := false }, []) :=
  ⟨fun _ _ _ => rfl, rfl⟩
